import Mathlib

/-!
Verification of the KALE Pool Pooler against its specification.

The definitions below are a shallow embedding of the Pooler's TypeScript
source: the Block Monitor (block-monitor service), the Work Manager and
Work Submission Service, and the Pool Coordinator.  Effectful inputs
(chain RPC reads, backend POST outcomes, miner process output, relay
submission outcomes, wall-clock readings) are passed in explicitly as
parameters; each embedded function mirrors the control flow of the
corresponding source function.
-/

namespace KalePool

/-! ## Block monitor data model (block-monitor service)

`KaleBlock` keeps only the fields the monitor actually reads: the block
timestamp (seconds since epoch; a `0` timestamp is falsy in JavaScript and
behaves like an absent one) and the entropy. -/

structure KaleBlock where
  timestamp : Option Nat
  entropyHex : Option String
deriving Repr, DecidableEq

/-- Result of `getContractData`: the farm index plus the optional block. -/
structure ContractData where
  index : Nat
  block : Option KaleBlock
deriving Repr, DecidableEq

/-- Failures of the chain reads (`getIndex` / RPC transport / decode). -/
inductive ChainErr where
  | rpcTransport
  | decodeError
deriving Repr, DecidableEq

/-- Shallow embedding of `BlockMonitor.getContractData`.  The source wraps
`getIndex` and `getBlock` in a try/catch that logs and returns partial
data: when the index read throws, the local `index` is still `0` and no
block was fetched, so the function returns `{index: 0, block: undefined}`.
`getBlock` catches its own errors and returns `undefined`, which is why the
block read is modelled as already-total (`Option KaleBlock`). -/
def getContractData (idxRead : Except ChainErr Nat)
    (blkRead : Nat → Option KaleBlock) : ContractData :=
  match idxRead with
  | .error _ => { index := 0, block := none }
  | .ok i => { index := i, block := if i > 0 then blkRead i else none }

/-- The `PoolerState` record of the Block Monitor, together with the
timer handle (`monitoringInterval ≠ null` is `timerActive`) and the
`isShuttingDown` flag of the class. -/
structure PoolerState where
  currentBlockIndex : Nat
  lastBlockTimestampMs : Option Nat
  isMonitoring : Bool
  timerActive : Bool
  isShuttingDown : Bool
  consecutiveMissedBlocks : Nat
  totalBlocksDiscovered : Nat
  errorCount : Nat
  maxErrorCount : Nat
  lastNotificationSentMs : Option Nat
deriving Repr, DecidableEq

/-- The parts of the `/pooler/block-discovered` POST body that the claims
are about. -/
structure BackendNotification where
  blockIndex : Nat
  blockAge : Int
  plantable : Bool
deriving Repr, DecidableEq

/-- The `blockTimestamp` local of `handleNewBlockDiscovered`:
`contractData.block?.timestamp ? new Date(ts*1000) : now`.  A missing
block, a missing timestamp, or a (falsy) zero timestamp all yield `now`. -/
def blockTimestampMs (nowMs : Nat) (block : Option KaleBlock) : Nat :=
  match block with
  | none => nowMs
  | some b =>
    match b.timestamp with
    | none => nowMs
    | some ts => if ts = 0 then nowMs else ts * 1000

/-- The `blockAge` local:
`Math.floor((now.getTime() - blockTimestamp.getTime()) / 1000)`. -/
def blockAgeSeconds (nowMs : Nat) (block : Option KaleBlock) : Int :=
  ((nowMs : Int) - (blockTimestampMs nowMs block : Int)).fdiv 1000

/-- Shallow embedding of `BlockMonitor.handleNewBlockDiscovered` followed
by `notifyBackend`.  The state update (cursor, timestamps, counters)
happens before `notifyBackend` is awaited; `notifyBackend` always attempts
the POST and catches its own failure, only `lastNotificationSent` depends
on the POST succeeding (`postOk`). -/
def handleNewBlockDiscovered (s : PoolerState) (cd : ContractData)
    (nowMs : Nat) (postOk : Bool) : PoolerState × BackendNotification :=
  let age := blockAgeSeconds nowMs cd.block
  let notif : BackendNotification :=
    { blockIndex := cd.index
      blockAge := age
      plantable := decide (30 ≤ age) && decide (age < 240) }
  let s1 : PoolerState :=
    { s with
      currentBlockIndex := cd.index
      lastBlockTimestampMs := some (blockTimestampMs nowMs cd.block)
      totalBlocksDiscovered := s.totalBlocksDiscovered + 1
      consecutiveMissedBlocks := 0
      lastNotificationSentMs := if postOk then some nowMs else s.lastNotificationSentMs }
  (s1, notif)

/-- Shallow embedding of `BlockMonitor.stopMonitoring`. -/
def stopMonitoring (s : PoolerState) : PoolerState :=
  if !s.isMonitoring then s
  else
    { s with isShuttingDown := true, timerActive := false, isMonitoring := false }

/-- Shallow embedding of `BlockMonitor.handleMonitoringError`. -/
def handleMonitoringError (s : PoolerState) : PoolerState :=
  let s1 := { s with errorCount := s.errorCount + 1 }
  if s1.errorCount ≥ s1.maxErrorCount then stopMonitoring s1 else s1

/-- One poll's effectful inputs.  `normal` carries the outcome of the two
chain reads, the wall clock, and whether a backend POST (if attempted)
succeeds.  `exception` stands for an exception escaping the body of
`checkForNewBlocks` into its catch clause. -/
inductive PollOutcome where
  | normal (idxRead : Except ChainErr Nat) (blkRead : Nat → Option KaleBlock)
      (nowMs : Nat) (postOk : Bool)
  | exception

/-- Output of one tick / one run: final state, the block-discovered POSTs
attempted, and how many polls performed a chain read. -/
structure RunOut where
  state : PoolerState
  notifs : List BackendNotification
  chainReads : Nat
deriving Repr

/-- Shallow embedding of `BlockMonitor.checkForNewBlocks`. -/
def checkForNewBlocks (s : PoolerState) (o : PollOutcome) : RunOut :=
  if s.isShuttingDown then { state := s, notifs := [], chainReads := 0 }
  else
    match o with
    | .exception => { state := handleMonitoringError s, notifs := [], chainReads := 1 }
    | .normal idxRead blkRead nowMs postOk =>
      let cd := getContractData idxRead blkRead
      if cd.index > s.currentBlockIndex then
        let p := handleNewBlockDiscovered s cd nowMs postOk
        { state := { p.1 with errorCount := 0 }, notifs := [p.2], chainReads := 1 }
      else if cd.index < s.currentBlockIndex then
        { state := { s with currentBlockIndex := cd.index, errorCount := 0 },
          notifs := [], chainReads := 1 }
      else
        { state := { s with errorCount := 0 }, notifs := [], chainReads := 1 }

/-- One timer tick: `checkForNewBlocks` fires only while the interval
timer is installed. -/
def monitorTick (s : PoolerState) (o : PollOutcome) : RunOut :=
  if s.timerActive then checkForNewBlocks s o
  else { state := s, notifs := [], chainReads := 0 }

/-- A run of the monitoring loop over a list of poll inputs. -/
def monitorRun (s : PoolerState) : List PollOutcome → RunOut
  | [] => { state := s, notifs := [], chainReads := 0 }
  | o :: os =>
    let r1 := monitorTick s o
    let r2 := monitorRun r1.state os
    { state := r2.state, notifs := r1.notifs ++ r2.notifs,
      chainReads := r1.chainReads + r2.chainReads }

/-! ## Work submission service (work-submission-service)

`submitWork` loops over at most `maxRetries = 3` attempts with a fixed
`retryDelay = 2000` ms sleep between attempts.  The effectful outcome of
attempt `k` is supplied as `outcomes k`. -/

/-- What one submission attempt can do: the simulation reports an error,
the Launchtube send returns a transaction hash, or an exception is thrown
(build failure, non-2xx relay response, transport error, ...). -/
inductive AttemptOutcome where
  | simError (msg : String)
  | sendOk (txHash : String)
  | sendThrow (msg : String)
deriving Repr, DecidableEq

structure WorkSubmissionResult where
  success : Bool
  transactionHash : Option String
  error : Option String
deriving Repr, DecidableEq

/-- A submission run: its result, how many attempts were made, and the
sleeps (in ms) performed between attempts. -/
structure SubmitTrace where
  result : WorkSubmissionResult
  attemptsMade : Nat
  sleepsMs : List Nat
deriving Repr, DecidableEq

/-- Character-list helper: does `hay` start with `needle`? -/
def startsWithChars : List Char → List Char → Bool
  | [], _ => true
  | _ :: _, [] => false
  | a :: as, b :: bs => a = b && startsWithChars as bs

/-- Character-list helper: does `needle` occur contiguously in `hay`?
This is the semantics of JavaScript's `String.includes`. -/
def hasSubChars (needle : List Char) : List Char → Bool
  | [] => needle.isEmpty
  | c :: rest => startsWithChars needle (c :: rest) || hasSubChars needle rest

/-- The retryable-error substrings of
`WorkSubmissionService.isRetryableError`. -/
def retryableErrors : List String :=
  ["NOT_FOUND", "timeout", "ECONNRESET", "ENOTFOUND", "ETIMEDOUT",
   "fetch failed", "network error"]

/-- Character-wise lower-casing of a string (the tokens and messages
compared here are ASCII, where this agrees with JavaScript's
`toLowerCase`). -/
def lowerChars (s : String) : List Char :=
  s.data.map Char.toLower

/-- Shallow embedding of `WorkSubmissionService.isRetryableError`:
`retryableErrors.some(e => errorMessage.toLowerCase().includes(e.toLowerCase()))`. -/
def isRetryableError (errorMessage : String) : Bool :=
  retryableErrors.any fun e =>
    hasSubChars (lowerChars e) (lowerChars errorMessage)

/-- The body of `submitWork`'s retry loop, starting at attempt number
`attempt`; `fuel` bounds the remaining loop iterations (the source's
`for` loop runs `attempt = 1 .. maxRetries`). -/
def submitWorkGo (outcomes : Nat → AttemptOutcome) (maxRetries retryDelay : Nat) :
    Nat → Nat → SubmitTrace
  | _, 0 =>
    { result := { success := false, transactionHash := none,
                  error := some "Maximum retry attempts exceeded" },
      attemptsMade := maxRetries, sleepsMs := [] }
  | attempt, fuel + 1 =>
    match outcomes attempt with
    | .simError m =>
      { result := { success := false, transactionHash := none,
                    error := some ("Simulation failed: " ++ m) },
        attemptsMade := attempt, sleepsMs := [] }
    | .sendOk h =>
      { result := { success := true, transactionHash := some h, error := none },
        attemptsMade := attempt, sleepsMs := [] }
    | .sendThrow m =>
      if attempt = maxRetries || !isRetryableError m then
        { result := { success := false, transactionHash := none, error := some m },
          attemptsMade := attempt, sleepsMs := [] }
      else
        let t := submitWorkGo outcomes maxRetries retryDelay (attempt + 1) fuel
        { result := t.result, attemptsMade := t.attemptsMade,
          sleepsMs := retryDelay :: t.sleepsMs }

/-- Shallow embedding of `WorkSubmissionService.submitWork`:
`maxRetries = 3`, `retryDelay = 2000`. -/
def submitWork (outcomes : Nat → AttemptOutcome) : SubmitTrace :=
  submitWorkGo outcomes 3 2000 1 3

/-! ## Work manager (work-manager service) -/

inductive WorkStatus where
  | success
  | failed
  | recovered
deriving Repr, DecidableEq

structure WorkRequest where
  farmerId : String
  custodialWallet : String
  custodialSecretKey : String
  blockIndex : Nat
  entropy : String
  stakeAmount : String
deriving Repr, DecidableEq

structure WorkResult where
  farmerId : String
  custodialWallet : String
  status : WorkStatus
  nonce : Option Nat
  hash : Option String
  zeros : Option Nat
  gap : Option Nat
  workTime : Nat
  attempts : Nat
  error : Option String
  compensationRequired : Bool
deriving Repr, DecidableEq

/-- Parsed output of the external miner (`readWorkStream` success). -/
structure MinerOutput where
  nonce : Nat
  hash : String
  zeros : Nat
  gap : Nat
deriving Repr, DecidableEq

/-- Outcome of the `workSubmissionService.submitWork` call as observed by
the work manager: either it returns a `WorkSubmissionResult`, or the
awaited call throws. -/
inductive SubmitOutcome where
  | returns (r : WorkSubmissionResult)
  | throws (err : String)
deriving Repr, DecidableEq

/-- Effectful inputs of one miner run for one farmer:
`preFail` — keypair derivation, blockIndex validation or spawn threw
before mining; `noOutput` — `readWorkStream` returned `null` (timeout,
empty stdout or parse failure), with the captured stderr; `mined` — the
miner produced output and the contract submission had the given
outcome. -/
inductive FarmerRunEnv where
  | preFail (err : String)
  | noOutput (stderr : String)
  | mined (out : MinerOutput) (submit : SubmitOutcome)
deriving Repr, DecidableEq

/-- Work manager constants (fields of `WorkManager`). -/
def NONCE_COUNT : Nat := 10000000

def MAX_RECOVERY_ATTEMPTS : Nat := 3

def WORK_DELAY_SECONDS : Nat := 150

/-- The nonce count used by recovery attempt `k`
(`this.NONCE_COUNT + attempt * 1000000` in `attemptRecovery`). -/
def recoveryNonceCount (attempt : Nat) : Nat :=
  NONCE_COUNT + attempt * 1000000

/-- Shallow embedding of `WorkManager.executeWorkForFarmer`.  `workTime`
is the elapsed wall-clock time of the run.  Every failure path of the
source returns `status: 'failed'` with `compensationRequired: true`; a
successful mine followed by a successful submission returns
`status: 'success'` with `compensationRequired: false`. -/
def executeWorkForFarmer (req : WorkRequest) (env : FarmerRunEnv)
    (workTime : Nat) : WorkResult :=
  match env with
  | .preFail err =>
    { farmerId := req.farmerId, custodialWallet := req.custodialWallet,
      status := .failed, nonce := none, hash := none, zeros := none, gap := none,
      workTime := workTime, attempts := 1, error := some err,
      compensationRequired := true }
  | .noOutput stderr =>
    { farmerId := req.farmerId, custodialWallet := req.custodialWallet,
      status := .failed, nonce := none, hash := none, zeros := none, gap := none,
      workTime := workTime, attempts := 1,
      error := some ("Work process timed out or produced no output. stderr: " ++ stderr),
      compensationRequired := true }
  | .mined out (.throws err) =>
    { farmerId := req.farmerId, custodialWallet := req.custodialWallet,
      status := .failed, nonce := some out.nonce, hash := some out.hash,
      zeros := some out.zeros, gap := some out.gap, workTime := workTime,
      attempts := 1,
      error := some ("Smart contract submission exception: " ++ err),
      compensationRequired := true }
  | .mined out (.returns r) =>
    if r.success then
      { farmerId := req.farmerId, custodialWallet := req.custodialWallet,
        status := .success, nonce := some out.nonce, hash := some out.hash,
        zeros := some out.zeros, gap := some out.gap, workTime := workTime,
        attempts := 1, error := none, compensationRequired := false }
    else
      { farmerId := req.farmerId, custodialWallet := req.custodialWallet,
        status := .failed, nonce := some out.nonce, hash := some out.hash,
        zeros := some out.zeros, gap := some out.gap, workTime := workTime,
        attempts := 1,
        error := some ("Smart contract submission failed: " ++ r.error.getD ""),
        compensationRequired := true }

/-- Shallow embedding of `WorkManager.executeWorkWithParams` (used only by
`attemptRecovery`).  Unlike `executeWorkForFarmer` it has no catch-all: a
pre-mining failure or a `null` miner output throws to the caller. -/
def executeWorkWithParams (req : WorkRequest) (env : FarmerRunEnv)
    (attemptNumber workTime : Nat) : Except String WorkResult :=
  match env with
  | .preFail err => .error err
  | .noOutput _ => .error "Work process timed out"
  | .mined out (.throws err) =>
    .ok { farmerId := req.farmerId, custodialWallet := req.custodialWallet,
          status := .failed, nonce := some out.nonce, hash := some out.hash,
          zeros := some out.zeros, gap := some out.gap, workTime := workTime,
          attempts := attemptNumber,
          error := some ("Recovery work smart contract submission exception: " ++ err),
          compensationRequired := true }
  | .mined out (.returns r) =>
    if r.success then
      .ok { farmerId := req.farmerId, custodialWallet := req.custodialWallet,
            status := .success, nonce := some out.nonce, hash := some out.hash,
            zeros := some out.zeros, gap := some out.gap, workTime := workTime,
            attempts := attemptNumber, error := none,
            compensationRequired := false }
    else
      .ok { farmerId := req.farmerId, custodialWallet := req.custodialWallet,
            status := .failed, nonce := some out.nonce, hash := some out.hash,
            zeros := some out.zeros, gap := some out.gap, workTime := workTime,
            attempts := attemptNumber,
            error := some ("Recovery work smart contract submission failed: " ++ r.error.getD ""),
            compensationRequired := true }

/-- The loop of `WorkManager.attemptRecovery`, from recovery attempt
number `attempt` with `fuel` iterations left.  A thrown attempt is caught
and the loop continues; a `success` result is returned with its status
overwritten to `recovered`; a non-success result is discarded. -/
def attemptRecoveryGo (req : WorkRequest) (envs : Nat → FarmerRunEnv)
    (workTimes : Nat → Nat) : Nat → Nat → Option WorkResult
  | _, 0 => none
  | attempt, fuel + 1 =>
    match executeWorkWithParams req (envs attempt) (attempt + 1) (workTimes attempt) with
    | .error _ => attemptRecoveryGo req envs workTimes (attempt + 1) fuel
    | .ok r =>
      if r.status = .success then some { r with status := .recovered }
      else attemptRecoveryGo req envs workTimes (attempt + 1) fuel

/-- Shallow embedding of `WorkManager.attemptRecovery`: up to
`MAX_RECOVERY_ATTEMPTS = 3` recovery attempts (attempt `k` runs with
nonce count `recoveryNonceCount k` and attempt number `k + 1`). -/
def attemptRecovery (req : WorkRequest) (envs : Nat → FarmerRunEnv)
    (workTimes : Nat → Nat) : Option WorkResult :=
  attemptRecoveryGo req envs workTimes 1 MAX_RECOVERY_ATTEMPTS

/-- The per-farmer effectful inputs of one batch entry: the first-attempt
environment plus the environments the recovery attempts would see. -/
structure FarmerBatchItem where
  req : WorkRequest
  env : FarmerRunEnv
  workTime : Nat
  recoveryEnvs : Nat → FarmerRunEnv
  recoveryWorkTimes : Nat → Nat

/-- Shallow embedding of the loop body of `WorkManager.executeWorkBatch`:
push the farmer's result; if it is `failed` with
`compensationRequired == false`, run recovery and replace the
just-pushed result in place when recovery yields one. -/
def executeWorkBatchStep (workResults : List WorkResult)
    (item : FarmerBatchItem) : List WorkResult :=
  let result := executeWorkForFarmer item.req item.env item.workTime
  let workResults := workResults ++ [result]
  if result.status = .failed ∧ result.compensationRequired = false then
    match attemptRecovery item.req item.recoveryEnvs item.recoveryWorkTimes with
    | some recoveryResult => workResults.dropLast ++ [recoveryResult]
    | none => workResults
  else workResults

/-- Shallow embedding of `WorkManager.executeWorkBatch` (the
`workResults` array it accumulates). -/
def executeWorkBatch (items : List FarmerBatchItem) : List WorkResult :=
  items.foldl executeWorkBatchStep []

/-- Shallow embedding of `WorkManager.blockTimestampToMs`.  A bigint
timestamp is always multiplied by 1000; a numeric timestamp is returned
unchanged when `> 10000000000` (already milliseconds) and multiplied by
1000 otherwise (seconds). -/
inductive BlockTimestamp where
  | num (n : Nat)
  | bigint (n : Nat)
deriving Repr, DecidableEq

def blockTimestampToMs : BlockTimestamp → Nat
  | .bigint n => n * 1000
  | .num n => if n > 10000000000 then n else n * 1000

/-- The `targetTimeMs` local of `WorkManager.scheduleWork`:
`blockTimeMs + WORK_DELAY_SECONDS * 1000`. -/
def scheduleWorkTargetMs (ts : BlockTimestamp) : Nat :=
  blockTimestampToMs ts + WORK_DELAY_SECONDS * 1000

/-- The `waitTimeMs` local of `WorkManager.scheduleWork`:
`Math.max(0, targetTimeMs - currentTimeMs)`. -/
def scheduleWorkWaitMs (ts : BlockTimestamp) (currentTimeMs : Nat) : Int :=
  max 0 ((scheduleWorkTargetMs ts : Int) - (currentTimeMs : Int))

/-! ## Pool coordinator (pool-coordinator service) -/

structure PlantedFarmer where
  farmerId : String
  custodialWallet : String
  custodialSecretKey : String
  stakeAmount : String
  plantingTimeMs : Nat
deriving Repr, DecidableEq

structure PlantingNotification where
  blockIndex : Nat
  entropy : String
  blockTimestamp : Nat
  plantedFarmers : List PlantedFarmer
deriving Repr, DecidableEq

/-- The work-request translation of `receivePlantingNotification`
(order-preserving `plantedFarmers.map`). -/
def toWorkRequests (n : PlantingNotification) : List WorkRequest :=
  n.plantedFarmers.map fun farmer =>
    { farmerId := farmer.farmerId
      custodialWallet := farmer.custodialWallet
      custodialSecretKey := farmer.custodialSecretKey
      blockIndex := n.blockIndex
      entropy := n.entropy
      stakeAmount := farmer.stakeAmount }

/-- Shallow embedding of `PoolCoordinator.receivePlantingNotification`'s
validation and translation: an empty `plantedFarmers` list is rejected
(logged only), otherwise the ordered work requests are scheduled. -/
def receivePlantingNotification (n : PlantingNotification) :
    Option (List WorkRequest) :=
  if n.plantedFarmers.isEmpty then none else some (toWorkRequests n)

/-- Shallow embedding of the failed-work results built by
`PoolCoordinator.handleWorkError` for every planted farmer. -/
def handleWorkErrorResults (plantedFarmers : List PlantedFarmer)
    (errMsg : String) : List WorkResult :=
  plantedFarmers.map fun farmer =>
    { farmerId := farmer.farmerId, custodialWallet := farmer.custodialWallet,
      status := .failed, nonce := none, hash := none, zeros := none, gap := none,
      workTime := 0, attempts := 0, error := some errMsg,
      compensationRequired := true }

/-! ## Auxiliary notions for the monitor's discovery-uniqueness analysis -/

/-- The farm index a poll observes (after `getContractData`'s internal
error handling), if the poll performs chain reads at all. -/
def obsIndex : PollOutcome → Option Nat
  | .normal idxRead blkRead _ _ => some (getContractData idxRead blkRead).index
  | .exception => none

/-- A run is regression-free when no poll observes a farm index strictly
below the cursor held when that poll fires (no chain reorg regression,
and no failed index read while the cursor is positive — a failed read
observes index `0`). -/
def noRegressionRun (s : PoolerState) : List PollOutcome → Bool
  | [] => true
  | o :: os =>
    (match obsIndex o with
     | none => true
     | some i => decide (s.currentBlockIndex ≤ i)) &&
    noRegressionRun (monitorTick s o).state os

/-! ## Concrete inputs used by individual claims -/

/-- A running monitor state with cursor 100 (claim C1). -/
def c1State : PoolerState :=
  { currentBlockIndex := 100, lastBlockTimestampMs := none,
    isMonitoring := true, timerActive := true, isShuttingDown := false,
    consecutiveMissedBlocks := 0, totalBlocksDiscovered := 3,
    errorCount := 0, maxErrorCount := 10, lastNotificationSentMs := none }

/-- A poll observing index 101 whose backend POST fails (claim C1). -/
def c1Poll : PollOutcome :=
  .normal (.ok 101)
    (fun _ => some { timestamp := some 1000, entropyHex := some "aa" })
    1045000 false

/-- A running monitor state with cursor 5 and two accumulated consecutive
errors (claim C3). -/
def c3State : PoolerState :=
  { currentBlockIndex := 5, lastBlockTimestampMs := none,
    isMonitoring := true, timerActive := true, isShuttingDown := false,
    consecutiveMissedBlocks := 0, totalBlocksDiscovered := 1,
    errorCount := 2, maxErrorCount := 10, lastNotificationSentMs := none }

/-- A poll whose farm-index read fails with an RPC transport error
(claim C3). -/
def c3Poll : PollOutcome :=
  .normal (.error .rpcTransport) (fun _ => none) 2000000 true

/-- A running monitor state with cursor 4 (claim C6). -/
def c6State : PoolerState :=
  { currentBlockIndex := 4, lastBlockTimestampMs := none,
    isMonitoring := true, timerActive := true, isShuttingDown := false,
    consecutiveMissedBlocks := 0, totalBlocksDiscovered := 0,
    errorCount := 0, maxErrorCount := 10, lastNotificationSentMs := none }

/-- A poll sequence with a reorg regression: index 5, then 4, then 5
again (claim C6 counterexample). -/
def c6Polls : List PollOutcome :=
  [.normal (.ok 5) (fun _ => none) 1000 true,
   .normal (.ok 4) (fun _ => none) 2000 true,
   .normal (.ok 5) (fun _ => none) 3000 true]

/-- A regression-free poll sequence: indices 5, 5, 6, with one escaped
exception in between (claim C6 witness). -/
def c6WitnessPolls : List PollOutcome :=
  [.normal (.ok 5) (fun _ => none) 1000 true,
   .normal (.ok 5) (fun _ => none) 2000 false,
   .exception,
   .normal (.ok 6) (fun _ => none) 3000 true]

/-- A freshly started monitor state with the default
`maxErrorCount = 10` (claim C7). -/
def c7State : PoolerState :=
  { currentBlockIndex := 42, lastBlockTimestampMs := none,
    isMonitoring := true, timerActive := true, isShuttingDown := false,
    consecutiveMissedBlocks := 0, totalBlocksDiscovered := 0,
    errorCount := 0, maxErrorCount := 10, lastNotificationSentMs := none }

/-- A running monitor state with cursor 100 (claim C9). -/
def c9State : PoolerState :=
  { currentBlockIndex := 100, lastBlockTimestampMs := none,
    isMonitoring := true, timerActive := true, isShuttingDown := false,
    consecutiveMissedBlocks := 0, totalBlocksDiscovered := 0,
    errorCount := 0, maxErrorCount := 10, lastNotificationSentMs := none }

/-- The block read used in claim C9's witness: block 101 with timestamp
1000 s, observed at wall clock 1 400 000 ms, i.e. 400 s old (the spec's
S2 stale-block scenario). -/
def c9BlkRead : Nat → Option KaleBlock :=
  fun _ => some { timestamp := some 1000, entropyHex := some "abcd" }

/-- A work request used by claims about the work manager (claim C2). -/
def c2Req : WorkRequest :=
  { farmerId := "F1", custodialWallet := "GWALLET",
    custodialSecretKey := "SSECRET", blockIndex := 201,
    entropy := "abcd", stakeAmount := "1000000" }

/-- A miner output that a recovery attempt would find (claim C2). -/
def c2Out : MinerOutput :=
  { nonce := 9999, hash := "00005ef0", zeros := 4, gap := 15 }

/-- Recovery environments in which every recovery attempt mines and
submits successfully (claim C2). -/
def c2RecoveryEnvs : Nat → FarmerRunEnv :=
  fun _ => .mined c2Out (.returns { success := true,
                                    transactionHash := some "TXAAA",
                                    error := none })

/-- A batch entry whose first mining attempt produces no output but whose
recovery attempts would all succeed (claim C2). -/
def c2Item : FarmerBatchItem :=
  { req := c2Req, env := .noOutput "", workTime := 300000,
    recoveryEnvs := c2RecoveryEnvs, recoveryWorkTimes := fun _ => 10000 }

/-- A batch entry for a farmer whose mining and submission succeed
(claim C5 witness). -/
def c5Item : FarmerBatchItem :=
  { req := { farmerId := "F2", custodialWallet := "GW2",
             custodialSecretKey := "SK2", blockIndex := 7,
             entropy := "ee", stakeAmount := "5" },
    env := .mined { nonce := 12345, hash := "0000007abc", zeros := 6, gap := 15 }
             (.returns { success := true, transactionHash := some "AAA",
                         error := none }),
    workTime := 60000,
    recoveryEnvs := fun _ => .noOutput "",
    recoveryWorkTimes := fun _ => 0 }

/-- Submission-attempt outcomes where attempt 1 throws a retryable
transport error and attempt 2 succeeds (claim C4 witness). -/
def c4Outcomes : Nat → AttemptOutcome :=
  fun k => if k = 1 then .sendThrow "fetch failed" else .sendOk "TXBBB"

/-- A two-farmer planting notification (claim C8 witness). -/
def c8Notification : PlantingNotification :=
  { blockIndex := 201, entropy := "abcd", blockTimestamp := 1700000000,
    plantedFarmers :=
      [{ farmerId := "F1", custodialWallet := "GW1", custodialSecretKey := "S1",
         stakeAmount := "10", plantingTimeMs := 0 },
       { farmerId := "F2", custodialWallet := "GW2", custodialSecretKey := "S2",
         stakeAmount := "20", plantingTimeMs := 0 }] }

/-- Batch entries realizing `c8Notification`'s work requests: farmer F1
succeeds, farmer F2's miner produces no output (claim C8 witness). -/
def c8Items : List FarmerBatchItem :=
  [{ req := { farmerId := "F1", custodialWallet := "GW1",
              custodialSecretKey := "S1", blockIndex := 201,
              entropy := "abcd", stakeAmount := "10" },
     env := .mined { nonce := 1, hash := "0ab", zeros := 1, gap := 15 }
              (.returns { success := true, transactionHash := some "T1",
                          error := none }),
     workTime := 1000,
     recoveryEnvs := fun _ => .noOutput "", recoveryWorkTimes := fun _ => 0 },
   { req := { farmerId := "F2", custodialWallet := "GW2",
              custodialSecretKey := "S2", blockIndex := 201,
              entropy := "abcd", stakeAmount := "20" },
     env := .noOutput "miner crashed",
     workTime := 300000,
     recoveryEnvs := fun _ => .noOutput "", recoveryWorkTimes := fun _ => 0 }]

/-! ## Theorems -/

/-- Any poll that discovers a new index advances the cursor to that index
and attempts exactly one discovery POST for it — whatever the POST
outcome `postOk` is.  (Shared helper for the block-monitor claims.) -/
theorem checkForNewBlocks_discovery (s : PoolerState)
    (idxRead : Except ChainErr Nat) (blkRead : Nat → Option KaleBlock)
    (nowMs : Nat) (postOk : Bool)
    (hsd : s.isShuttingDown = false)
    (hnew : s.currentBlockIndex < (getContractData idxRead blkRead).index) :
    (checkForNewBlocks s (.normal idxRead blkRead nowMs postOk)).state.currentBlockIndex
      = (getContractData idxRead blkRead).index
    ∧ (checkForNewBlocks s (.normal idxRead blkRead nowMs postOk)).notifs.map
        (fun n => n.blockIndex) = [(getContractData idxRead blkRead).index]
    ∧ (checkForNewBlocks s (.normal idxRead blkRead nowMs postOk)).notifs.map
        (fun n => n.plantable)
      = [decide (30 ≤ blockAgeSeconds nowMs (getContractData idxRead blkRead).block
           ∧ blockAgeSeconds nowMs (getContractData idxRead blkRead).block < 240)] := by
  refine ⟨?_, ?_, ?_⟩ <;>
    simp [checkForNewBlocks, hsd, if_pos hnew, handleNewBlockDiscovered]

/-- C1 (counterexample): with cursor 100, a poll observing index 101
whose backend POST fails still advances the cursor to 101 — the claim
that the cursor is left unchanged on POST failure is false. -/
theorem C1_counterexample :
    (checkForNewBlocks c1State c1Poll).state.currentBlockIndex = 101
    ∧ ¬ (checkForNewBlocks c1State c1Poll).state.currentBlockIndex
        = c1State.currentBlockIndex := by
  decide

/-- C1 (amended): on a new-block discovery the cursor is advanced to
`snapshot.index` inside `handleNewBlockDiscovered`, before and regardless
of the outcome of the block-discovered POST; a POST failure is only
logged (`notifyBackend` swallows it), so the next poll does not
re-attempt the notification. -/
theorem C1_cursor_advances_regardless_of_post (s : PoolerState)
    (idxRead : Except ChainErr Nat) (blkRead : Nat → Option KaleBlock)
    (nowMs : Nat) (postOk : Bool)
    (hsd : s.isShuttingDown = false)
    (hnew : s.currentBlockIndex < (getContractData idxRead blkRead).index) :
    (checkForNewBlocks s (.normal idxRead blkRead nowMs postOk)).state.currentBlockIndex
      = (getContractData idxRead blkRead).index
    ∧ (checkForNewBlocks s (.normal idxRead blkRead nowMs postOk)).notifs.map
        (fun n => n.blockIndex) = [(getContractData idxRead blkRead).index] := by
  have h := checkForNewBlocks_discovery s idxRead blkRead nowMs postOk hsd hnew
  exact ⟨h.1, h.2.1⟩

/-- C1 (witness): the amended statement at the concrete failed-POST poll
of the counterexample. -/
theorem C1_cursor_advances_regardless_of_post_witness :
    c1State.isShuttingDown = false
    ∧ c1State.currentBlockIndex
        < (getContractData (.ok 101)
            (fun _ => some { timestamp := some 1000, entropyHex := some "aa" })).index
    ∧ (checkForNewBlocks c1State c1Poll).state.currentBlockIndex
        = (getContractData (.ok 101)
            (fun _ => some { timestamp := some 1000, entropyHex := some "aa" })).index := by
  refine ⟨by decide, by decide, ?_⟩
  exact (C1_cursor_advances_regardless_of_post c1State (.ok 101)
    (fun _ => some { timestamp := some 1000, entropyHex := some "aa" })
    1045000 false (by decide) (by decide)).1

/-- C3 (counterexample): with cursor 5 and two accumulated consecutive
errors, a poll whose farm-index read throws an RPC transport error does
not increment the error counter — the error is swallowed inside
`getContractData`, the poll is treated as successful (counter reset to
0), and the reorg branch resets the cursor to 0. -/
theorem C3_counterexample :
    (checkForNewBlocks c3State c3Poll).state.errorCount = 0
    ∧ (checkForNewBlocks c3State c3Poll).state.currentBlockIndex = 0
    ∧ ¬ ((checkForNewBlocks c3State c3Poll).state.errorCount
           = c3State.errorCount + 1
         ∧ (checkForNewBlocks c3State c3Poll).state.currentBlockIndex
           = c3State.currentBlockIndex) := by
  decide

/-- C3 (amended): only an exception escaping the poll body increments
`errorCount` (leaving the cursor unchanged); a chain RPC or decode error
during the farm-index read is swallowed by `getContractData`, which
returns index 0 — the poll then resets `errorCount` to 0, emits no
notification, and sets the cursor to 0. -/
theorem C3_error_count_accounting (s : PoolerState)
    (blkRead : Nat → Option KaleBlock) (nowMs : Nat) (postOk : Bool)
    (e : ChainErr) (hsd : s.isShuttingDown = false) :
    ((checkForNewBlocks s .exception).state.errorCount = s.errorCount + 1
     ∧ (checkForNewBlocks s .exception).state.currentBlockIndex
         = s.currentBlockIndex)
    ∧ ((checkForNewBlocks s (.normal (.error e) blkRead nowMs postOk)).state.errorCount = 0
       ∧ (checkForNewBlocks s (.normal (.error e) blkRead nowMs postOk)).state.currentBlockIndex = 0
       ∧ (checkForNewBlocks s (.normal (.error e) blkRead nowMs postOk)).notifs = []) := by
  constructor
  · simp only [checkForNewBlocks, hsd, Bool.false_eq_true, if_false,
      handleMonitoringError, stopMonitoring]
    constructor
    · split
      · split <;> rfl
      · rfl
    · split
      · split <;> rfl
      · rfl
  · have hcd : getContractData (.error e) blkRead = { index := 0, block := none } := rfl
    simp only [checkForNewBlocks, hsd, Bool.false_eq_true, if_false, hcd]
    rcases Nat.eq_zero_or_pos s.currentBlockIndex with h0 | hpos
    · simp [h0]
    · simp [Nat.not_lt.mpr (Nat.zero_le _), hpos]

/-- C3 (witness): the amended statement at the counterexample's concrete
state and failing read. -/
theorem C3_error_count_accounting_witness :
    c3State.isShuttingDown = false
    ∧ (checkForNewBlocks c3State .exception).state.errorCount
        = c3State.errorCount + 1
    ∧ (checkForNewBlocks c3State c3Poll).state.errorCount = 0 := by
  refine ⟨by decide, ?_, ?_⟩
  · exact (C3_error_count_accounting c3State (fun _ => none) 2000000 true
      .rpcTransport (by decide)).1.1
  · exact (C3_error_count_accounting c3State (fun _ => none) 2000000 true
      .rpcTransport (by decide)).2.1

/-- C9: on every new-block discovery the emitted notification's
`plantable` flag is true iff `30 ≤ blockAgeSeconds < 240`, where
`blockAgeSeconds = ⌊(now − blockTimestamp)/1000⌋` and a missing (or
JavaScript-falsy) block timestamp makes the age 0; a block outside the
window is still notified and the cursor still advances. -/
theorem C9_plantable_window (s : PoolerState)
    (idxRead : Except ChainErr Nat) (blkRead : Nat → Option KaleBlock)
    (nowMs : Nat) (postOk : Bool)
    (hsd : s.isShuttingDown = false)
    (hnew : s.currentBlockIndex < (getContractData idxRead blkRead).index) :
    ((checkForNewBlocks s (.normal idxRead blkRead nowMs postOk)).notifs.map
        (fun n => n.plantable)
      = [decide (30 ≤ blockAgeSeconds nowMs (getContractData idxRead blkRead).block
           ∧ blockAgeSeconds nowMs (getContractData idxRead blkRead).block < 240)])
    ∧ (checkForNewBlocks s (.normal idxRead blkRead nowMs postOk)).notifs.map
        (fun n => n.blockIndex) = [(getContractData idxRead blkRead).index]
    ∧ (checkForNewBlocks s (.normal idxRead blkRead nowMs postOk)).state.currentBlockIndex
      = (getContractData idxRead blkRead).index
    ∧ (∀ e, blockAgeSeconds nowMs none = 0
        ∧ blockAgeSeconds nowMs (some { timestamp := none, entropyHex := e }) = 0
        ∧ blockAgeSeconds nowMs (some { timestamp := some 0, entropyHex := e }) = 0) := by
  have h := checkForNewBlocks_discovery s idxRead blkRead nowMs postOk hsd hnew
  refine ⟨h.2.2, h.2.1, h.1, ?_⟩
  intro e
  refine ⟨?_, ?_, ?_⟩ <;>
    simp [blockAgeSeconds, blockTimestampMs, Int.zero_fdiv]

/-- C9 (witness): the spec's S2 stale-block scenario — block timestamp
1000 s, wall clock 1 400 000 ms (age 400 s): the block is still notified
with `plantable = false` and the cursor advances to 101. -/
theorem C9_plantable_window_witness :
    c9State.isShuttingDown = false
    ∧ c9State.currentBlockIndex < (getContractData (.ok 101) c9BlkRead).index
    ∧ (checkForNewBlocks c9State (.normal (.ok 101) c9BlkRead 1400000 true)).notifs.map
        (fun n => n.plantable)
      = [decide (30 ≤ blockAgeSeconds 1400000 (getContractData (.ok 101) c9BlkRead).block
           ∧ blockAgeSeconds 1400000 (getContractData (.ok 101) c9BlkRead).block < 240)]
    ∧ blockAgeSeconds 1400000 (getContractData (.ok 101) c9BlkRead).block = 400
    ∧ decide (30 ≤ (400 : Int) ∧ (400 : Int) < 240) = false := by
  refine ⟨by decide, by decide, ?_, by decide, by decide⟩
  exact (C9_plantable_window c9State (.ok 101) c9BlkRead 1400000 true
    (by decide) (by decide)).1

/-- C10: `scheduleWork`'s target time is `blockTimestampToMs ts + 150000`
ms and the wait is `max 0 (target − now)`; a numeric timestamp is
multiplied by 1000 when it is at most 10 000 000 000 (seconds) and used
unchanged when greater (already milliseconds). -/
theorem C10_schedule_target (n now : Nat) :
    scheduleWorkWaitMs (.num n) now
      = max 0 ((scheduleWorkTargetMs (.num n) : Int) - (now : Int))
    ∧ (n ≤ 10000000000 →
        scheduleWorkTargetMs (.num n) = n * 1000 + 150000)
    ∧ (10000000000 < n →
        scheduleWorkTargetMs (.num n) = n + 150000) := by
  refine ⟨rfl, ?_, ?_⟩ <;> intro h <;>
    simp only [scheduleWorkTargetMs, blockTimestampToMs, WORK_DELAY_SECONDS] <;>
    [rw [if_neg (by omega)]; rw [if_pos (by omega)]]

/-- C10 (witness): a millisecond-precision timestamp (1.7·10¹²) is used
unchanged, so the target is not a thousandfold in the future. -/
theorem C10_schedule_target_witness :
    10000000000 < 1700000000000
    ∧ scheduleWorkTargetMs (.num 1700000000000) = 1700000000000 + 150000 := by
  exact ⟨by norm_num,
    (C10_schedule_target 1700000000000 0).2.2 (by norm_num)⟩

/-- C2: the recovery loop of the work manager is dead code.  A farmer
whose miner produces no output gets `status = failed` with
`compensationRequired = true`; `executeWorkBatch` guards recovery by
`status == failed && !compensationRequired`, which is never satisfied, so
the failed result is kept even though `attemptRecovery` on the same
inputs would return a `recovered` result on its first attempt. -/
theorem C2_recovery_code_is_dead :
    (executeWorkForFarmer c2Req (.noOutput "") 300000).status = .failed
    ∧ (executeWorkForFarmer c2Req (.noOutput "") 300000).compensationRequired = true
    ∧ executeWorkBatch [c2Item] = [executeWorkForFarmer c2Req (.noOutput "") 300000]
    ∧ attemptRecovery c2Req c2RecoveryEnvs (fun _ => 10000)
      = some { farmerId := "F1", custodialWallet := "GWALLET",
               status := .recovered, nonce := some 9999,
               hash := some "00005ef0", zeros := some 4, gap := some 15,
               workTime := 10000, attempts := 2, error := none,
               compensationRequired := false } := by
  decide

/-- C4: `submitWork` makes at most three attempts, the sleeps between
attempts are exactly one fixed 2000 ms sleep per retry, every attempt
that was followed by a retry threw a retryable error (message containing
one of the case-insensitive tokens), a simulation error terminates the
submission immediately with `success = false`, and a throw on the final
attempt yields `success = false` — a retryable one only ends the run at
the three-attempt cap. -/
theorem C4_submitWork_retry_policy (oc : Nat → AttemptOutcome) :
    (submitWork oc).attemptsMade ≤ 3
    ∧ (submitWork oc).sleepsMs
        = List.replicate ((submitWork oc).attemptsMade - 1) 2000
    ∧ (∀ k, 1 ≤ k → k < (submitWork oc).attemptsMade →
        ∃ m, oc k = .sendThrow m ∧ isRetryableError m = true)
    ∧ (∀ m, oc 1 = .simError m →
        submitWork oc
          = { result := { success := false, transactionHash := none,
                          error := some ("Simulation failed: " ++ m) },
              attemptsMade := 1, sleepsMs := [] })
    ∧ (∀ m, oc (submitWork oc).attemptsMade = .sendThrow m →
        (submitWork oc).result.success = false
        ∧ (isRetryableError m = true → (submitWork oc).attemptsMade = 3)) := by
  rcases h1 : oc 1 with m1 | t1 | m1
  · refine ⟨?_, ?_, ?_, ?_, ?_⟩ <;>
      simp_all [submitWork, submitWorkGo, h1] <;> omega
  · refine ⟨?_, ?_, ?_, ?_, ?_⟩ <;>
      simp_all [submitWork, submitWorkGo, h1] <;> omega
  · by_cases r1 : isRetryableError m1
    · rcases h2 : oc 2 with m2 | t2 | m2
      · refine ⟨?_, ?_, ?_, ?_, ?_⟩ <;>
          simp_all [submitWork, submitWorkGo, h1, h2, r1]
        intro k hk1 hk2
        interval_cases k
        exact ⟨m1, h1, r1⟩
      · refine ⟨?_, ?_, ?_, ?_, ?_⟩ <;>
          simp_all [submitWork, submitWorkGo, h1, h2, r1]
        intro k hk1 hk2
        interval_cases k
        exact ⟨m1, h1, r1⟩
      · by_cases r2 : isRetryableError m2
        · rcases h3 : oc 3 with m3 | t3 | m3
          · refine ⟨?_, ?_, ?_, ?_, ?_⟩ <;>
              simp_all [submitWork, submitWorkGo, h1, h2, h3, r1, r2]
            intro k hk1 hk2
            interval_cases k
            · exact ⟨m1, h1, r1⟩
            · exact ⟨m2, h2, r2⟩
          · refine ⟨?_, ?_, ?_, ?_, ?_⟩ <;>
              simp_all [submitWork, submitWorkGo, h1, h2, h3, r1, r2]
            intro k hk1 hk2
            interval_cases k
            · exact ⟨m1, h1, r1⟩
            · exact ⟨m2, h2, r2⟩
          · refine ⟨?_, ?_, ?_, ?_, ?_⟩ <;>
              simp_all [submitWork, submitWorkGo, h1, h2, h3, r1, r2]
            intro k hk1 hk2
            interval_cases k
            · exact ⟨m1, h1, r1⟩
            · exact ⟨m2, h2, r2⟩
        · refine ⟨?_, ?_, ?_, ?_, ?_⟩ <;>
            simp_all [submitWork, submitWorkGo, h1, h2, r1, r2]
          intro k hk1 hk2
          interval_cases k
          exact ⟨m1, h1, r1⟩
    · refine ⟨?_, ?_, ?_, ?_, ?_⟩ <;>
        simp_all [submitWork, submitWorkGo, h1, r1] <;> omega

/-- C4 (witness): attempt 1 throws `fetch failed` (retryable), attempt 2
succeeds — two attempts were made, and the retried attempt indeed threw a
retryable error. -/
theorem C4_submitWork_retry_policy_witness :
    (submitWork c4Outcomes).attemptsMade ≤ 3
    ∧ ∃ m, c4Outcomes 1 = .sendThrow m ∧ isRetryableError m = true := by
  refine ⟨(C4_submitWork_retry_policy c4Outcomes).1, ?_⟩
  exact (C4_submitWork_retry_policy c4Outcomes).2.2.1 1 (by decide) (by decide)

/-- Every result of `executeWorkForFarmer` satisfies
`compensationRequired ↔ status = failed`, and carries the request's
farmer id.  (Shared helper.) -/
theorem executeWorkForFarmer_spec (req : WorkRequest) (env : FarmerRunEnv)
    (wt : Nat) :
    ((executeWorkForFarmer req env wt).compensationRequired = true
      ↔ (executeWorkForFarmer req env wt).status = .failed)
    ∧ (executeWorkForFarmer req env wt).farmerId = req.farmerId := by
  cases env with
  | preFail e => simp [executeWorkForFarmer]
  | noOutput st => simp [executeWorkForFarmer]
  | mined out sub =>
    cases sub with
    | throws e => simp [executeWorkForFarmer]
    | returns r =>
      by_cases h : r.success = true <;> simp [executeWorkForFarmer, h]

/-- Every `ok` result of `executeWorkWithParams` satisfies
`compensationRequired ↔ status = failed`, and carries the request's
farmer id.  (Shared helper.) -/
theorem executeWorkWithParams_spec (req : WorkRequest) (env : FarmerRunEnv)
    (k wt : Nat) (r : WorkResult)
    (h : executeWorkWithParams req env k wt = .ok r) :
    (r.compensationRequired = true ↔ r.status = .failed)
    ∧ r.farmerId = req.farmerId := by
  cases env with
  | preFail e => simp [executeWorkWithParams] at h
  | noOutput st => simp [executeWorkWithParams] at h
  | mined out sub =>
    cases sub with
    | throws e =>
      simp only [executeWorkWithParams, Except.ok.injEq] at h
      subst h; simp
    | returns r0 =>
      by_cases hs : r0.success = true <;>
        simp only [executeWorkWithParams, hs, if_true, if_false,
          Bool.false_eq_true, Except.ok.injEq] at h <;>
        subst h <;> simp

/-- Every result `attemptRecoveryGo` returns has status `recovered`,
`compensationRequired = false`, and the request's farmer id.
(Shared helper.) -/
theorem attemptRecoveryGo_spec (req : WorkRequest)
    (envs : Nat → FarmerRunEnv) (wts : Nat → Nat) :
    ∀ fuel attempt r, attemptRecoveryGo req envs wts attempt fuel = some r →
      r.status = .recovered ∧ r.compensationRequired = false
      ∧ r.farmerId = req.farmerId := by
  intro fuel
  induction fuel with
  | zero => intro attempt r h; simp [attemptRecoveryGo] at h
  | succ fuel ih =>
    intro attempt r h
    rw [attemptRecoveryGo] at h
    cases hw : executeWorkWithParams req (envs attempt) (attempt + 1) (wts attempt) with
    | error e =>
      rw [hw] at h
      dsimp only [] at h
      exact ih _ _ h
    | ok r0 =>
      rw [hw] at h
      dsimp only [] at h
      by_cases hs : r0.status = .success
      · rw [if_pos hs] at h
        injection h with h
        subst h
        have hsp := (executeWorkWithParams_spec req _ _ _ r0 hw).1
        rw [hs] at hsp
        simp only [reduceCtorEq, iff_false, Bool.not_eq_true] at hsp
        exact ⟨rfl, hsp, (executeWorkWithParams_spec req _ _ _ r0 hw).2⟩
      · rw [if_neg hs] at h
        exact ih _ _ h

/-- Same as `attemptRecoveryGo_spec`, for `attemptRecovery`. -/
theorem attemptRecovery_spec (req : WorkRequest)
    (envs : Nat → FarmerRunEnv) (wts : Nat → Nat) (r : WorkResult)
    (h : attemptRecovery req envs wts = some r) :
    r.status = .recovered ∧ r.compensationRequired = false
    ∧ r.farmerId = req.farmerId :=
  attemptRecoveryGo_spec req envs wts MAX_RECOVERY_ATTEMPTS 1 r h

/-- Dropping the last element of `l ++ [a]` gives back `l`.
(Shared helper.) -/
theorem dropLast_append_single {α : Type} (l : List α) (a : α) :
    (l ++ [a]).dropLast = l := by
  simp

/-- A member of one `executeWorkBatchStep` application is a member of the
accumulator, the farmer's first-attempt result, or a recovery result.
(Shared helper.) -/
theorem executeWorkBatchStep_mem (acc : List WorkResult)
    (item : FarmerBatchItem) (r : WorkResult)
    (h : r ∈ executeWorkBatchStep acc item) :
    r ∈ acc
    ∨ r = executeWorkForFarmer item.req item.env item.workTime
    ∨ ∃ rr, attemptRecovery item.req item.recoveryEnvs item.recoveryWorkTimes
          = some rr ∧ r = rr := by
  simp only [executeWorkBatchStep] at h
  split at h
  · rcases hrec : attemptRecovery item.req item.recoveryEnvs item.recoveryWorkTimes
      with _ | rr
    · rw [hrec] at h
      dsimp only [] at h
      rcases List.mem_append.mp h with hin | hin
      · exact Or.inl hin
      · exact Or.inr (Or.inl (List.mem_singleton.mp hin))
    · rw [hrec] at h
      dsimp only [] at h
      rw [dropLast_append_single] at h
      rcases List.mem_append.mp h with hin | hin
      · exact Or.inl hin
      · exact Or.inr (Or.inr ⟨rr, rfl, List.mem_singleton.mp hin⟩)
  · rcases List.mem_append.mp h with hin | hin
    · exact Or.inl hin
    · exact Or.inr (Or.inl (List.mem_singleton.mp hin))

/-- Every member of an `executeWorkBatch` result list satisfies
`compensationRequired ↔ status = failed`.  (Shared helper.) -/
theorem executeWorkBatch_mem_spec (items : List FarmerBatchItem)
    (r : WorkResult) (h : r ∈ executeWorkBatch items) :
    r.compensationRequired = true ↔ r.status = .failed := by
  suffices H : ∀ acc : List WorkResult,
      (∀ x ∈ acc, x.compensationRequired = true ↔ x.status = .failed) →
      ∀ x ∈ items.foldl executeWorkBatchStep acc,
        x.compensationRequired = true ↔ x.status = .failed by
    exact H [] (by simp) r h
  clear h r
  induction items with
  | nil => intro acc hacc x hx; exact hacc x hx
  | cons item items ih =>
    intro acc hacc x hx
    refine ih (executeWorkBatchStep acc item) ?_ x hx
    intro y hy
    have hmem := executeWorkBatchStep_mem acc item y hy
    rcases hmem with hin | heq | hex
    · exact hacc y hin
    · rw [heq]
      exact (executeWorkForFarmer_spec item.req item.env item.workTime).1
    · obtain ⟨rr, hrec, hyr⟩ := hex
      have hsp := attemptRecovery_spec item.req _ _ rr hrec
      rw [hyr, hsp.1, hsp.2.1]
      simp

/-- C5: for every WorkResult the Pooler produces — first attempts,
recovery attempts, whole batches, and the coordinator's whole-batch
error path — `compensationRequired = true` holds iff `status = failed`. -/
theorem C5_compensation_iff_failed :
    (∀ req env wt,
      ((executeWorkForFarmer req env wt).compensationRequired = true
        ↔ (executeWorkForFarmer req env wt).status = .failed))
    ∧ (∀ req env k wt r, executeWorkWithParams req env k wt = .ok r →
        (r.compensationRequired = true ↔ r.status = .failed))
    ∧ (∀ items r, r ∈ executeWorkBatch items →
        (r.compensationRequired = true ↔ r.status = .failed))
    ∧ (∀ farmers msg r, r ∈ handleWorkErrorResults farmers msg →
        r.compensationRequired = true ∧ r.status = .failed) := by
  refine ⟨?_, ?_, ?_, ?_⟩
  · intro req env wt
    exact (executeWorkForFarmer_spec req env wt).1
  · intro req env k wt r h
    exact (executeWorkWithParams_spec req env k wt r h).1
  · intro items r h
    exact executeWorkBatch_mem_spec items r h
  · intro farmers msg r h
    rcases List.mem_map.mp h with ⟨farmer, _, rfl⟩
    exact ⟨rfl, rfl⟩

/-- C5 (witness): the invariant at a concrete successful batch member. -/
theorem C5_compensation_iff_failed_witness :
    (executeWorkForFarmer c5Item.req c5Item.env c5Item.workTime)
      ∈ executeWorkBatch [c5Item]
    ∧ ((executeWorkForFarmer c5Item.req c5Item.env c5Item.workTime).compensationRequired = true
       ↔ (executeWorkForFarmer c5Item.req c5Item.env c5Item.workTime).status = .failed) := by
  refine ⟨by decide, ?_⟩
  exact C5_compensation_iff_failed.2.2.1 [c5Item] _ (by decide)

/-- One batch step appends exactly one result carrying the item's farmer
id (recovery replaces in place, keeping the id).  (Shared helper.) -/
theorem executeWorkBatchStep_map_farmerId (acc : List WorkResult)
    (item : FarmerBatchItem) :
    (executeWorkBatchStep acc item).map (fun r => r.farmerId)
      = acc.map (fun r => r.farmerId) ++ [item.req.farmerId] := by
  simp only [executeWorkBatchStep]
  split
  · cases hrec : attemptRecovery item.req item.recoveryEnvs item.recoveryWorkTimes with
    | some rr =>
      dsimp only []
      rw [dropLast_append_single]
      simp [(attemptRecovery_spec item.req _ _ rr hrec).2.2]
    | none =>
      dsimp only []
      simp [(executeWorkForFarmer_spec item.req item.env item.workTime).2]
  · simp [(executeWorkForFarmer_spec item.req item.env item.workTime).2]

/-- The batch's farmer-id sequence equals the items' request farmer-id
sequence.  (Shared helper.) -/
theorem executeWorkBatch_map_farmerId (items : List FarmerBatchItem) :
    (executeWorkBatch items).map (fun r => r.farmerId)
      = items.map (fun it => it.req.farmerId) := by
  suffices H : ∀ acc : List WorkResult,
      (items.foldl executeWorkBatchStep acc).map (fun r => r.farmerId)
        = acc.map (fun r => r.farmerId) ++ items.map (fun it => it.req.farmerId) by
    simpa using H []
  induction items with
  | nil => intro acc; simp
  | cons item items ih =>
    intro acc
    simp only [List.foldl_cons, List.map_cons]
    rw [ih (executeWorkBatchStep acc item), executeWorkBatchStep_map_farmerId]
    simp

/-- C8: for every accepted (non-empty) planting notification, the batch
produces exactly one result per planted farmer, in the order of the
input `plantedFarmers` list — recovery replaces a result in place and
never reorders or duplicates. -/
theorem C8_ordering_preserved (n : PlantingNotification)
    (reqs : List WorkRequest) (items : List FarmerBatchItem)
    (hrecv : receivePlantingNotification n = some reqs)
    (hitems : items.map (fun it => it.req) = reqs) :
    (executeWorkBatch items).map (fun r => r.farmerId)
      = n.plantedFarmers.map (fun f => f.farmerId)
    ∧ (executeWorkBatch items).length = n.plantedFarmers.length := by
  have hreqs : reqs = toWorkRequests n := by
    simp only [receivePlantingNotification] at hrecv
    split at hrecv
    · exact absurd hrecv (by simp)
    · exact (Option.some.injEq _ _ ▸ hrecv).symm
  have h1 : (executeWorkBatch items).map (fun r => r.farmerId)
      = items.map (fun it => it.req.farmerId) :=
    executeWorkBatch_map_farmerId items
  have h2 : items.map (fun it => it.req.farmerId)
      = reqs.map (fun q => q.farmerId) := by
    rw [← hitems, List.map_map]
    rfl
  have h3 : reqs.map (fun q => q.farmerId)
      = n.plantedFarmers.map (fun f => f.farmerId) := by
    subst hreqs
    simp [toWorkRequests, List.map_map]
  constructor
  · rw [h1, h2, h3]
  · have := congrArg List.length ((h1.trans h2).trans h3)
    simpa using this

/-- C8 (witness): a two-farmer notification — F1 succeeds, F2's miner
produces no output — yields results `[F1, F2]` in input order. -/
theorem C8_ordering_preserved_witness :
    receivePlantingNotification c8Notification
      = some (toWorkRequests c8Notification)
    ∧ c8Items.map (fun it => it.req) = toWorkRequests c8Notification
    ∧ (executeWorkBatch c8Items).map (fun r => r.farmerId)
      = c8Notification.plantedFarmers.map (fun f => f.farmerId) := by
  refine ⟨by decide, by decide, ?_⟩
  exact (C8_ordering_preserved c8Notification (toWorkRequests c8Notification)
    c8Items (by decide) (by decide)).1

/-- `handleMonitoringError` never touches the cursor.  (Shared helper.) -/
theorem handleMonitoringError_cursor (s : PoolerState) :
    (handleMonitoringError s).currentBlockIndex = s.currentBlockIndex := by
  simp only [handleMonitoringError, stopMonitoring]
  split
  · split <;> rfl
  · rfl

/-- A regression-free tick either emits nothing and keeps the cursor, or
emits exactly one notification for the strictly larger new cursor.
(Shared helper.) -/
theorem monitorTick_step (s : PoolerState) (o : PollOutcome)
    (h : ∀ i, obsIndex o = some i → s.currentBlockIndex ≤ i) :
    ((monitorTick s o).notifs = []
      ∧ (monitorTick s o).state.currentBlockIndex = s.currentBlockIndex)
    ∨ (∃ nn, (monitorTick s o).notifs = [nn]
        ∧ nn.blockIndex = (monitorTick s o).state.currentBlockIndex
        ∧ s.currentBlockIndex < (monitorTick s o).state.currentBlockIndex) := by
  by_cases ht : s.timerActive = true
  · by_cases hsd : s.isShuttingDown = true
    · left
      simp [monitorTick, ht, checkForNewBlocks, hsd]
    · rw [Bool.not_eq_true] at hsd
      cases o with
      | exception =>
        left
        simp [monitorTick, ht, checkForNewBlocks, hsd,
          handleMonitoringError_cursor]
      | normal idxRead blkRead nowMs postOk =>
        have hle : s.currentBlockIndex
            ≤ (getContractData idxRead blkRead).index := h _ rfl
        rcases Nat.lt_or_ge s.currentBlockIndex
            (getContractData idxRead blkRead).index with hlt | hge
        · right
          refine ⟨(handleNewBlockDiscovered s (getContractData idxRead blkRead)
            nowMs postOk).2, ?_, ?_, ?_⟩ <;>
            simp [monitorTick, ht, checkForNewBlocks, hsd, hlt,
              handleNewBlockDiscovered]
        · have heq : (getContractData idxRead blkRead).index
              = s.currentBlockIndex := Nat.le_antisymm hge hle
          left
          simp [monitorTick, ht, checkForNewBlocks, hsd, heq]
  · left
    simp [monitorTick, ht]

/-- In a regression-free run, every emitted notification's index is above
the starting cursor, the cursor never decreases, and the emitted indices
are strictly increasing.  (Shared helper.) -/
theorem monitorRun_no_regression (os : List PollOutcome) :
    ∀ s : PoolerState, noRegressionRun s os = true →
      (∀ nn ∈ (monitorRun s os).notifs,
        s.currentBlockIndex < nn.blockIndex)
      ∧ s.currentBlockIndex ≤ (monitorRun s os).state.currentBlockIndex
      ∧ ((monitorRun s os).notifs.map (fun nn => nn.blockIndex)).Pairwise (· < ·) := by
  induction os with
  | nil =>
    intro s _
    simp [monitorRun]
  | cons o os ih =>
    intro s h
    rw [noRegressionRun, Bool.and_eq_true] at h
    obtain ⟨h1, h2⟩ := h
    have hobs : ∀ i, obsIndex o = some i → s.currentBlockIndex ≤ i := by
      intro i hi
      rw [hi] at h1
      simpa using h1
    have hrun : monitorRun s (o :: os)
        = { state := (monitorRun (monitorTick s o).state os).state,
            notifs := (monitorTick s o).notifs
              ++ (monitorRun (monitorTick s o).state os).notifs,
            chainReads := (monitorTick s o).chainReads
              + (monitorRun (monitorTick s o).state os).chainReads } := rfl
    have IH := ih (monitorTick s o).state h2
    rcases monitorTick_step s o hobs with ⟨hn, hc⟩ | ⟨nn, hn, hbi, hlt⟩
    · rw [hrun]
      refine ⟨?_, ?_, ?_⟩
      · intro m hm
        simp only [hn, List.nil_append] at hm
        have := IH.1 m hm
        rwa [hc] at this
      · rw [← hc]
        exact IH.2.1
      · simp only [hn, List.nil_append]
        exact IH.2.2
    · rw [hrun]
      refine ⟨?_, ?_, ?_⟩
      · intro m hm
        simp only [hn, List.cons_append, List.nil_append, List.mem_cons] at hm
        rcases hm with rfl | hm
        · rw [hbi]
          exact hlt
        · exact Nat.lt_trans hlt (IH.1 m hm)
      · exact Nat.le_trans (Nat.le_of_lt hlt) IH.2.1
      · simp only [hn, List.cons_append, List.nil_append, List.map_cons]
        refine List.Pairwise.cons ?_ IH.2.2
        intro b hb
        rcases List.mem_map.mp hb with ⟨m, hm, rfl⟩
        rw [hbi]
        exact IH.1 m hm

/-- C6 (counterexample): starting at cursor 4, the poll sequence
observing indices 5, 4, 5 (a reorg regression) makes the monitor attempt
two block-discovered POSTs with `blockIndex = 5` — the same index is
notified twice, so the at-most-once claim is false. -/
theorem C6_counterexample :
    ((monitorRun c6State c6Polls).notifs.map (fun nn => nn.blockIndex)).count 5 = 2 := by
  decide

/-- C6 (amended): the at-most-once guarantee holds exactly for
regression-free runs — as long as no poll observes an index below the
current cursor (no reorg regression, and no failed farm-index read while
the cursor is positive, since a failed read observes index 0), the
notified indices are strictly increasing, hence each index is notified at
most once.  A regression re-opens the cursor and permits a duplicate
notification. -/
theorem C6_at_most_once_no_regression (s : PoolerState)
    (os : List PollOutcome) (h : noRegressionRun s os = true) :
    ((monitorRun s os).notifs.map (fun nn => nn.blockIndex)).Pairwise (· < ·)
    ∧ ∀ v, ((monitorRun s os).notifs.map (fun nn => nn.blockIndex)).count v ≤ 1 := by
  have H := monitorRun_no_regression os s h
  refine ⟨H.2.2, ?_⟩
  have hnd : ((monitorRun s os).notifs.map (fun nn => nn.blockIndex)).Nodup :=
    H.2.2.imp fun hab => Nat.ne_of_lt hab
  exact fun v => List.nodup_iff_count_le_one.mp hnd v

/-- C6 (witness): a regression-free run observing 5, 5, 6 (with one
escaped exception in between) notifies each index at most once. -/
theorem C6_at_most_once_no_regression_witness :
    noRegressionRun c6State c6WitnessPolls = true
    ∧ ∀ v, ((monitorRun c6State c6WitnessPolls).notifs.map
        (fun nn => nn.blockIndex)).count v ≤ 1 := by
  refine ⟨by decide, ?_⟩
  exact (C6_at_most_once_no_regression c6State c6WitnessPolls (by decide)).2

/-- With the timer uninstalled, a run does nothing: no chain reads, no
notifications, no state change.  (Shared helper.) -/
theorem monitorRun_timer_off (os : List PollOutcome) :
    ∀ s : PoolerState, s.timerActive = false →
      monitorRun s os = { state := s, notifs := [], chainReads := 0 } := by
  induction os with
  | nil => intro s _; rfl
  | cons o os ih =>
    intro s h
    have ht : monitorTick s o = { state := s, notifs := [], chainReads := 0 } := by
      simp [monitorTick, h]
    simp [monitorRun, ht, ih s h]

/-- After `k` consecutive failing polls that exhaust the error budget
(`errorCount + k = maxErrorCount`), a running monitor is halted: the
timer is cleared, `isShuttingDown` is set, `isMonitoring` is cleared.
(Shared helper.) -/
theorem consecutive_errors_halt :
    ∀ (k : Nat) (s : PoolerState),
      s.isMonitoring = true → s.timerActive = true →
      s.isShuttingDown = false → s.errorCount + k = s.maxErrorCount →
      0 < k →
      (monitorRun s (List.replicate k .exception)).state.timerActive = false
      ∧ (monitorRun s (List.replicate k .exception)).state.isShuttingDown = true
      ∧ (monitorRun s (List.replicate k .exception)).state.isMonitoring = false := by
  intro k
  induction k with
  | zero =>
    intro s _ _ _ _ hpos
    exact absurd hpos (by omega)
  | succ k ih =>
    intro s hm ht hsd hsum _
    have htick : monitorTick s .exception
        = { state := handleMonitoringError s, notifs := [], chainReads := 1 } := by
      simp [monitorTick, ht, checkForNewBlocks, hsd]
    rcases Nat.eq_zero_or_pos k with hk0 | hkpos
    · subst hk0
      have hge : ({ s with errorCount := s.errorCount + 1 } : PoolerState).errorCount
          ≥ ({ s with errorCount := s.errorCount + 1 } : PoolerState).maxErrorCount := by
        simp
        omega
      have hstop : handleMonitoringError s
          = { s with errorCount := s.errorCount + 1, isShuttingDown := true,
                     timerActive := false, isMonitoring := false } := by
        rw [handleMonitoringError, if_pos hge, stopMonitoring]
        rw [if_neg (by simp [hm])]
      simp [monitorRun, htick, hstop]
    · have hlt : ¬ (({ s with errorCount := s.errorCount + 1 } : PoolerState).errorCount
          ≥ ({ s with errorCount := s.errorCount + 1 } : PoolerState).maxErrorCount) := by
        simp
        omega
      have hME : handleMonitoringError s
          = { s with errorCount := s.errorCount + 1 } := by
        rw [handleMonitoringError, if_neg hlt]
      have hrec := ih { s with errorCount := s.errorCount + 1 }
        (by simp [hm]) (by simp [ht]) (by simp [hsd]) (by simp; omega) hkpos
      simpa [monitorRun, htick, hME] using hrec

/-- C7: after `maxErrorCount` consecutive failing polls a running monitor
halts — its timer is stopped, it is shutting down, and any further run
performs zero chain reads and leaves the state untouched. -/
theorem C7_halt_after_max_errors (s : PoolerState)
    (hm : s.isMonitoring = true) (ht : s.timerActive = true)
    (hsd : s.isShuttingDown = false) (he : s.errorCount = 0)
    (hmax : 0 < s.maxErrorCount) :
    (monitorRun s (List.replicate s.maxErrorCount .exception)).state.timerActive = false
    ∧ (monitorRun s (List.replicate s.maxErrorCount .exception)).state.isShuttingDown = true
    ∧ ∀ os : List PollOutcome,
        (monitorRun (monitorRun s (List.replicate s.maxErrorCount .exception)).state os).chainReads = 0
        ∧ (monitorRun (monitorRun s (List.replicate s.maxErrorCount .exception)).state os).state
          = (monitorRun s (List.replicate s.maxErrorCount .exception)).state := by
  have h := consecutive_errors_halt s.maxErrorCount s hm ht hsd (by omega) hmax
  refine ⟨h.1, h.2.1, ?_⟩
  intro os
  rw [monitorRun_timer_off os _ h.1]
  exact ⟨rfl, rfl⟩

/-- C7 (witness): with the default `maxErrorCount = 10`, ten consecutive
failing polls stop the timer, and a subsequent poll performs no chain
read. -/
theorem C7_halt_after_max_errors_witness :
    c7State.isMonitoring = true ∧ c7State.errorCount = 0
    ∧ (monitorRun c7State (List.replicate c7State.maxErrorCount .exception)).state.timerActive = false
    ∧ (monitorRun (monitorRun c7State (List.replicate c7State.maxErrorCount .exception)).state
        [.normal (.ok 99) (fun _ => none) 5000 true]).chainReads = 0 := by
  have h := C7_halt_after_max_errors c7State (by decide) (by decide)
    (by decide) (by decide) (by decide)
  exact ⟨by decide, by decide, h.1,
    (h.2.2 [.normal (.ok 99) (fun _ => none) 5000 true]).1⟩

end KalePool
